import Mathlib

/-!
Shallow embedding of the Vibrational-Gravity-Theory wave solvers
(`simulations/wave_1d.py`, `simulations/wave_2d.py`) and of the
stability / decay analysis (`analysis/dispersion.py`), with theorems
settling the specification claims about them.

Real numbers model the `float64` arithmetic of the source; field arrays
are modelled as functions from natural indices, with the grid sizes
carried in the parameter structures exactly as the source carries them.
-/

open Real Finset

open scoped Classical

noncomputable section

namespace VGT

/-- `np.linspace(0, L, N)`: the `i`-th coordinate.  For `N ≥ 2` numpy
returns `L * i / (N - 1)`; for `N = 1` it returns `[0.0]`. -/
def linspace (L : ℝ) (N : ℕ) (i : ℕ) : ℝ :=
  if N ≤ 1 then 0 else L * i / ((N : ℝ) - 1)

/-! ## 1D simulation (`simulations/wave_1d.py`, class `VGTSimulation1D`) -/

/-- Constructor parameters of `VGTSimulation1D.__init__`. -/
structure Params1D where
  L : ℝ
  Nx : ℕ
  c : ℝ
  omega0 : ℝ
  dt_factor : ℝ
  pulse_width : ℝ

/-- `self.dx = L / Nx` (wave_1d.py line 40). -/
def Params1D.dx (p : Params1D) : ℝ := p.L / p.Nx

/-- `self.dt = dt_factor * self.dx / c` (wave_1d.py line 41). -/
def Params1D.dt (p : Params1D) : ℝ := p.dt_factor * p.dx / p.c

/-- `self.x = np.linspace(0, L, Nx)` (wave_1d.py line 45). -/
def Params1D.x (p : Params1D) (i : ℕ) : ℝ := linspace p.L p.Nx i

/-- `gaussian_pulse(center, amplitude)` (wave_1d.py lines 52-56):
`amplitude * exp(-((x - center)**2) / pulse_width)`. -/
def gaussian_pulse (p : Params1D) (center amplitude : ℝ) (i : ℕ) : ℝ :=
  amplitude * Real.exp (-((p.x i - center) ^ 2) / p.pulse_width)

/-- One time step of `VGTSimulation1D.simulate` (wave_1d.py lines 79-91):
`phi_next = np.zeros_like(phi)`, the stencil written into the interior
indices `1 ≤ i ≤ Nx-2`, and the boundary cells overwritten with 0 last. -/
def step1D (p : Params1D) (phi phiPrev : ℕ → ℝ) (i : ℕ) : ℝ :=
  if i = 0 ∨ i = p.Nx - 1 then 0
  else if 1 ≤ i ∧ i ≤ p.Nx - 2 then
    2 * phi i - phiPrev i
      + p.dt ^ 2 * (p.c ^ 2 * ((phi (i + 1) - 2 * phi i + phi (i - 1)) / p.dx ^ 2)
          - p.omega0 ^ 2 * phi i)
  else 0

/-- `np.max(np.abs(phi))` over the `N`-point grid (a fold; for `N ≥ 1`
this equals the maximum since absolute values are nonnegative). -/
def maxAbs (N : ℕ) (phi : ℕ → ℝ) : ℝ :=
  (List.range N).foldl (fun a i => max a |phi i|) 0

/-- The run state of `VGTSimulation1D`: the two field buffers plus the
instance lists `phi_history`, `time_points`, `max_amplitude`. -/
structure Run1D where
  phi : ℕ → ℝ
  phiPrev : ℕ → ℝ
  phi_history : List (ℕ → ℝ)
  time_points : List ℝ
  max_amplitude : List ℝ

/-- Loop body of `VGTSimulation1D.simulate` at step counter `t`
(wave_1d.py lines 79-102): advance, shift buffers, append a snapshot
when `t % save_every == 0`, always append `max(|phi|)`. -/
def simStep1D (p : Params1D) (save_every : ℕ) (s : Run1D) (t : ℕ) : Run1D :=
  let phiNext := step1D p s.phi s.phiPrev
  { phi := phiNext
    phiPrev := s.phi
    phi_history :=
      if t % save_every = 0 then s.phi_history ++ [phiNext] else s.phi_history
    time_points :=
      if t % save_every = 0 then s.time_points ++ [(t : ℝ) * p.dt] else s.time_points
    max_amplitude := s.max_amplitude ++ [maxAbs p.Nx phiNext] }

/-- The state right before the time loop of `VGTSimulation1D.simulate`
(wave_1d.py lines 69-76): `phi = gaussian_pulse()` with its default
center `L/2` and amplitude `1`, `phi_prev = phi.copy()`, and the initial
snapshot, time point and amplitude recorded. -/
def init1DState (p : Params1D) : Run1D :=
  let phi0 := gaussian_pulse p (p.L / 2) 1
  { phi := phi0
    phiPrev := phi0
    phi_history := [phi0]
    time_points := [0]
    max_amplitude := [maxAbs p.Nx phi0] }

namespace VGTSimulation1D

/-- `VGTSimulation1D.simulate(Nt, save_every)` (wave_1d.py lines 58-104):
the time loop runs `t = 1 .. Nt`. -/
def simulate (p : Params1D) (Nt save_every : ℕ) : Run1D :=
  (List.range' 1 Nt).foldl (simStep1D p save_every) (init1DState p)

end VGTSimulation1D

/-- `VGTSimulation1D.__init__` performs no validation at all; the only
failures on the construction path are Python `ZeroDivisionError`s from
`dx = L / Nx` when `Nx = 0` and from `dt = dt_factor * dx / c` when
`c = 0` (wave_1d.py lines 36-45). -/
def construct1D (L : ℝ) (Nx : ℕ) (c omega0 dt_factor pulse_width : ℝ) :
    Except String Params1D :=
  if Nx = 0 then Except.error "ZeroDivisionError"
  else if c = 0 then Except.error "ZeroDivisionError"
  else Except.ok
    { L := L, Nx := Nx, c := c, omega0 := omega0,
      dt_factor := dt_factor, pulse_width := pulse_width }

/-! ## 2D simulation (`simulations/wave_2d.py`, class `VGTSimulation2D`)

Arrays have numpy shape `(Ny, Nx)`: the first index `i` runs along `y`
(axis 0) and the second index `j` along `x` (axis 1), following
`np.meshgrid(x, y)` with its default indexing. -/

/-- Constructor parameters of `VGTSimulation2D.__init__`. -/
structure Params2D where
  Lx : ℝ
  Ly : ℝ
  Nx : ℕ
  Ny : ℕ
  c : ℝ
  omega0 : ℝ
  dt_factor : ℝ

/-- `self.dx = Lx / Nx` (wave_2d.py line 42). -/
def Params2D.dx (p : Params2D) : ℝ := p.Lx / p.Nx

/-- `self.dy = Ly / Ny` (wave_2d.py line 43). -/
def Params2D.dy (p : Params2D) : ℝ := p.Ly / p.Ny

/-- `self.dt = dt_factor * min(dx, dy) / c` (wave_2d.py line 44). -/
def Params2D.dt (p : Params2D) : ℝ := p.dt_factor * min p.dx p.dy / p.c

/-- `self.X[i, j] = x[j]` from `np.meshgrid(x, y)` (wave_2d.py line 49). -/
def Params2D.X (p : Params2D) (_i j : ℕ) : ℝ := linspace p.Lx p.Nx j

/-- `self.Y[i, j] = y[i]` from `np.meshgrid(x, y)` (wave_2d.py line 49). -/
def Params2D.Y (p : Params2D) (i _j : ℕ) : ℝ := linspace p.Ly p.Ny i

/-- `gaussian_pulse_2d(center, width, amplitude)` (wave_2d.py lines 56-62):
`amplitude * exp(-r2 / width**2)` with `r2` the squared distance to the
center. -/
def gaussian_pulse_2d (p : Params2D) (cx cy width amplitude : ℝ) (i j : ℕ) : ℝ :=
  amplitude *
    Real.exp (-((p.X i j - cx) ^ 2 + (p.Y i j - cy) ^ 2) / width ^ 2)

/-- `ring_pulse(center, radius, width, amplitude)` (wave_2d.py lines 64-70). -/
def ring_pulse (p : Params2D) (cx cy radius width amplitude : ℝ) (i j : ℕ) : ℝ :=
  amplitude *
    Real.exp
      (-((Real.sqrt ((p.X i j - cx) ^ 2 + (p.Y i j - cy) ^ 2) - radius) ^ 2)
        / width ^ 2)

/-- `laplacian_2d(phi)` (wave_2d.py lines 72-82): zeros everywhere,
the 5-point stencil written into the interior slice
`[1:-1, 1:-1]`, i.e. `1 ≤ i ≤ Ny-2`, `1 ≤ j ≤ Nx-2`. -/
def laplacian_2d (p : Params2D) (phi : ℕ → ℕ → ℝ) (i j : ℕ) : ℝ :=
  if 1 ≤ i ∧ i ≤ p.Ny - 2 ∧ 1 ≤ j ∧ j ≤ p.Nx - 2 then
    (phi i (j + 1) - 2 * phi i j + phi i (j - 1)) / p.dx ^ 2
      + (phi (i + 1) j - 2 * phi i j + phi (i - 1) j) / p.dy ^ 2
  else 0

/-- One time step of `VGTSimulation2D.simulate` (wave_2d.py lines 113-126):
the vectorized leapfrog update over the whole array, with the four edge
slices overwritten with 0 last. -/
def step2D (p : Params2D) (phi phiPrev : ℕ → ℕ → ℝ) (i j : ℕ) : ℝ :=
  if i = 0 ∨ i = p.Ny - 1 ∨ j = 0 ∨ j = p.Nx - 1 then 0
  else
    2 * phi i j - phiPrev i j
      + p.dt ^ 2 * (p.c ^ 2 * laplacian_2d p phi i j - p.omega0 ^ 2 * phi i j)

/-- `np.gradient(phi, dx, axis=1)` with numpy's default first-order
one-sided differences at the two edge columns and centered differences
in between (used by `compute_energy`, wave_2d.py line 147).  Faithful to
numpy for `Nx ≥ 2`; numpy raises for fewer than two points. -/
def np_gradient_x (Nx : ℕ) (dx : ℝ) (phi : ℕ → ℕ → ℝ) (i j : ℕ) : ℝ :=
  if j = 0 then (phi i 1 - phi i 0) / dx
  else if j = Nx - 1 then (phi i (Nx - 1) - phi i (Nx - 2)) / dx
  else (phi i (j + 1) - phi i (j - 1)) / (2 * dx)

/-- `np.gradient(phi, dy, axis=0)` (wave_2d.py line 148). -/
def np_gradient_y (Ny : ℕ) (dy : ℝ) (phi : ℕ → ℕ → ℝ) (i j : ℕ) : ℝ :=
  if i = 0 then (phi 1 j - phi 0 j) / dy
  else if i = Ny - 1 then (phi (Ny - 1) j - phi (Ny - 2) j) / dy
  else (phi (i + 1) j - phi (i - 1) j) / (2 * dy)

/-- `VGTSimulation2D.compute_energy(phi, phi_prev)` (wave_2d.py
lines 140-152): forward-difference kinetic term plus gradient/mass
potential term, each summed over the whole `(Ny, Nx)` array. -/
def compute_energy (p : Params2D) (phi phiPrev : ℕ → ℕ → ℝ) : ℝ :=
  0.5 * (∑ i ∈ Finset.range p.Ny, ∑ j ∈ Finset.range p.Nx,
      ((phi i j - phiPrev i j) / p.dt) ^ 2) * p.dx * p.dy
  + 0.5 * (∑ i ∈ Finset.range p.Ny, ∑ j ∈ Finset.range p.Nx,
      (np_gradient_x p.Nx p.dx phi i j ^ 2 + np_gradient_y p.Ny p.dy phi i j ^ 2
        + p.omega0 ^ 2 * phi i j ^ 2)) * p.dx * p.dy

/-- The persistent instance lists of `VGTSimulation2D`:
`phi_history`, `time_points`, `energy_history`. -/
structure Run2D where
  phi_history : List (ℕ → ℕ → ℝ)
  time_points : List ℝ
  energy_history : List ℝ

/-- Loop-carried state of `VGTSimulation2D.simulate`: the two field
buffers plus the instance lists. -/
structure Loop2D where
  phi : ℕ → ℕ → ℝ
  phiPrev : ℕ → ℕ → ℝ
  hist : Run2D

/-- Loop body of `VGTSimulation2D.simulate` at step counter `t`
(wave_2d.py lines 113-136): advance, shift buffers, and when
`t % save_every == 0` append the snapshot, the time point, and
`compute_energy(phi, phi_prev)` of the shifted buffers together. -/
def simStep2D (p : Params2D) (save_every : ℕ) (s : Loop2D) (t : ℕ) : Loop2D :=
  let phiNext := step2D p s.phi s.phiPrev
  if t % save_every = 0 then
    { phi := phiNext
      phiPrev := s.phi
      hist :=
        { phi_history := s.hist.phi_history ++ [phiNext]
          time_points := s.hist.time_points ++ [(t : ℝ) * p.dt]
          energy_history :=
            s.hist.energy_history ++ [compute_energy p phiNext s.phi] } }
  else { phi := phiNext, phiPrev := s.phi, hist := s.hist }

/-- The full loop of `VGTSimulation2D.simulate` run from instance state
`st` with the already-dispatched initial field `phi0`: the initial
snapshot/time/energy appends of wave_2d.py lines 105-110 followed by the
time loop `t = 1 .. Nt`.  Returns the final loop state including the
field buffers. -/
def run2Dloop (p : Params2D) (st : Run2D) (phi0 : ℕ → ℕ → ℝ)
    (Nt save_every : ℕ) : Loop2D :=
  (List.range' 1 Nt).foldl (simStep2D p save_every)
    { phi := phi0
      phiPrev := phi0
      hist :=
        { phi_history := st.phi_history ++ [phi0]
          time_points := st.time_points ++ [0]
          energy_history := st.energy_history ++ [compute_energy p phi0 phi0] } }

/-- The instance state left behind by the loop of
`VGTSimulation2D.simulate`. -/
def run2D (p : Params2D) (st : Run2D) (phi0 : ℕ → ℕ → ℝ)
    (Nt save_every : ℕ) : Run2D :=
  (run2Dloop p st phi0 Nt save_every).hist

/-- The initial-condition dispatch at the top of
`VGTSimulation2D.simulate` (wave_2d.py lines 97-103): `'gaussian'` and
`'ring'` build their default pulses, anything else raises
`ValueError("Unknown initial_type")`. -/
def initial_field (p : Params2D) (initial_type : String) :
    Except String (ℕ → ℕ → ℝ) :=
  if initial_type = "gaussian" then
    Except.ok (gaussian_pulse_2d p (p.Lx / 2) (p.Ly / 2) 1 1)
  else if initial_type = "ring" then
    Except.ok (ring_pulse p (p.Lx / 2) (p.Ly / 2) 3 0.5 1)
  else Except.error "Unknown initial_type"

namespace VGTSimulation2D

/-- `VGTSimulation2D.simulate(Nt, save_every, initial_type)`
(wave_2d.py lines 84-138), run from instance state `st`, with the three
failure paths the Python call has, in their execution order: the
explicit `ValueError("Unknown initial_type")` of the dispatch
(lines 98-103); then the initial energy append (line 110) calls
`compute_energy`, whose `np.gradient(phi, dx, axis=1)` /
`np.gradient(phi, dy, axis=0)` raise `ValueError` when the
corresponding axis has fewer than 2 points (numpy needs at least
`edge_order + 1 = 2` elements); then the first loop iteration evaluates
`t % save_every` (line 133), which raises `ZeroDivisionError` when
`save_every = 0` and the loop runs at all (`Nt ≥ 1`). -/
def simulate (p : Params2D) (st : Run2D) (Nt save_every : ℕ)
    (initial_type : String) : Except String Run2D :=
  (initial_field p initial_type).bind fun phi0 =>
    if p.Nx < 2 ∨ p.Ny < 2 then
      Except.error "ValueError: array too small for np.gradient"
    else if save_every = 0 ∧ 1 ≤ Nt then
      Except.error "ZeroDivisionError"
    else Except.ok (run2D p st phi0 Nt save_every)

end VGTSimulation2D

/-! ## Stability / decay analysis (`analysis/dispersion.py`) -/

/-- The fixed 2D stability threshold `1.0 / np.sqrt(2)` of
`DispersionAnalyzer.analyze_stability` (dispersion.py line 174). -/
def stability_limit_2d : ℝ := 1 / Real.sqrt 2

/-- `dt_factors = np.linspace(0.1, 2.0, 20)` (dispersion.py line 169). -/
def dt_factors (n : ℕ) : ℝ := 0.1 + (2.0 - 0.1) * n / 19

/-- The classification `stability.append(1 if stable else 0)` with
`stable = dt_f < 1.0 / np.sqrt(2)` (dispersion.py lines 172-175). -/
def stability_indicator (dt_f : ℝ) : ℕ :=
  if dt_f < stability_limit_2d then 1 else 0

/-- The scanned classification list of `analyze_stability`. -/
def stability_scan : List ℕ :=
  (List.range 20).map fun n => stability_indicator (dt_factors n)

/-- The decay model `exp_decay(t, A, tau, offset) = A*exp(-t/tau) + offset`
(dispersion.py lines 201-202). -/
def exp_decay (A tau offset t : ℝ) : ℝ := A * Real.exp (-t / tau) + offset

/-- The two possible outcomes of the amplitude-decay panel of
`analyze_stability` (dispersion.py lines 204-212): a plot carrying the
fitted parameters `(A, tau, offset)`, or the raw-data-only fallback
plot drawn in the `except` branch. -/
inductive AmplitudePlot where
  | fitted : ℝ × ℝ × ℝ → AmplitudePlot
  | rawOnly : AmplitudePlot

/-- The `try`/`except` around `scipy.optimize.curve_fit`
(dispersion.py lines 204-212).  `curve_fit` itself is third-party
code outside this repository, so its outcome is taken as an input:
`Except.ok popt` for a converged fit, `Except.error` for any raised
non-convergence failure.  The bare `except:` catches every failure and
falls back to the raw-data plot; nothing escapes. -/
def amplitude_fit_plot (fit_result : Except Unit (ℝ × ℝ × ℝ)) : AmplitudePlot :=
  match fit_result with
  | Except.ok popt => AmplitudePlot.fitted popt
  | Except.error _ => AmplitudePlot.rawOnly

/-! ## Spec-side energy functional (for the refinement claim C5)

These definitions follow the words of spec section 4.3, to be compared
with `compute_energy` above which was transcribed from the source. -/

/-- Spec wording: x-gradient "computed via centered differences with
edge cells using one-sided differences". -/
def specGradX (Nx : ℕ) (dx : ℝ) (phi : ℕ → ℕ → ℝ) (i j : ℕ) : ℝ :=
  if 1 ≤ j ∧ j ≤ Nx - 2 then (phi i (j + 1) - phi i (j - 1)) / (2 * dx)
  else if j = 0 then (phi i 1 - phi i 0) / dx
  else (phi i (Nx - 1) - phi i (Nx - 2)) / dx

/-- Spec wording: y-gradient, centered in the interior and one-sided at
the edge rows. -/
def specGradY (Ny : ℕ) (dy : ℝ) (phi : ℕ → ℕ → ℝ) (i j : ℕ) : ℝ :=
  if 1 ≤ i ∧ i ≤ Ny - 2 then (phi (i + 1) j - phi (i - 1) j) / (2 * dy)
  else if i = 0 then (phi 1 j - phi 0 j) / dy
  else (phi (Ny - 1) j - phi (Ny - 2) j) / dy

/-- Spec wording of 4.3: kinetic term `½·Σ((cur−prev)/dt)²·dx·dy` plus
potential term `½·Σ(gradient_x² + gradient_y² + ω₀²·cur²)·dx·dy`. -/
def energySpec (p : Params2D) (cur prev : ℕ → ℕ → ℝ) : ℝ :=
  (1 / 2) * (∑ i ∈ Finset.range p.Ny, ∑ j ∈ Finset.range p.Nx,
      ((cur i j - prev i j) / p.dt) ^ 2) * (p.dx * p.dy)
  + (1 / 2) * (∑ i ∈ Finset.range p.Ny, ∑ j ∈ Finset.range p.Nx,
      (specGradX p.Nx p.dx cur i j ^ 2 + specGradY p.Ny p.dy cur i j ^ 2
        + p.omega0 ^ 2 * cur i j ^ 2)) * (p.dx * p.dy)

/-! ## Helper lemmas -/

/-- A fold over a nonempty list is the fold function applied one last
time to some intermediate state. -/
theorem foldl_exists_last {α : Type} {β : Type} (f : α → β → α) :
    ∀ (l : List β), l ≠ [] → ∀ s : α, ∃ s' b, l.foldl f s = f s' b
  | [], h => absurd rfl h
  | [b], _ => fun s => ⟨s, b, rfl⟩
  | b :: b' :: l, _ => fun s =>
      foldl_exists_last f (b' :: l) (List.cons_ne_nil b' l) (f s b)

/-- `step1D` zeroes the left boundary cell. -/
theorem step1D_left (p : Params1D) (phi phiPrev : ℕ → ℝ) :
    step1D p phi phiPrev 0 = 0 := by
  simp [step1D]

/-- `step1D` zeroes the right boundary cell. -/
theorem step1D_right (p : Params1D) (phi phiPrev : ℕ → ℝ) :
    step1D p phi phiPrev (p.Nx - 1) = 0 := by
  simp [step1D]

/-- `step2D` zeroes every edge cell. -/
theorem step2D_edge (p : Params2D) (phi phiPrev : ℕ → ℕ → ℝ) (i j : ℕ)
    (h : i = 0 ∨ i = p.Ny - 1 ∨ j = 0 ∨ j = p.Nx - 1) :
    step2D p phi phiPrev i j = 0 := by
  simp only [step2D, if_pos h]

/-- The 1D loop body always ends a step with the freshly advanced field. -/
theorem simStep1D_phi (p : Params1D) (k : ℕ) (s : Run1D) (t : ℕ) :
    (simStep1D p k s t).phi = step1D p s.phi s.phiPrev := rfl

/-- The 2D loop body always ends a step with the freshly advanced field. -/
theorem simStep2D_phi (p : Params2D) (k : ℕ) (s : Loop2D) (t : ℕ) :
    (simStep2D p k s t).phi = step2D p s.phi s.phiPrev := by
  unfold simStep2D
  split <;> rfl

/-- The default constructor arguments of `VGTSimulation1D`
(`L=10, Nx=400, c=1, omega0=2, dt_factor=0.9, pulse_width=0.1`). -/
def defaultParams1D : Params1D :=
  { L := 10, Nx := 400, c := 1, omega0 := 2, dt_factor := 0.9, pulse_width := 0.1 }

/-- The default constructor arguments of `VGTSimulation2D`
(`Lx=Ly=20, Nx=Ny=200, c=1, omega0=2, dt_factor=0.5`). -/
def defaultParams2D : Params2D :=
  { Lx := 20, Ly := 20, Nx := 200, Ny := 200, c := 1, omega0 := 2, dt_factor := 0.5 }

/-! ## Claim C1 -/

/-- C1: one 1D advance step computes the leapfrog stencil
`next[i] = 2·cur[i] − prev[i] + dt²·(c²·(cur[i+1] − 2·cur[i] + cur[i−1])/dx² − ω₀²·cur[i])`
at every interior index `1 ≤ i ≤ N−2`, and sets the boundary cells
`next[0] = next[N−1] = 0` unconditionally, for every field of length
`N ≥ 3` with `dx > 0` and `c > 0`. -/
theorem C1_advance_step (p : Params1D) (cur prev : ℕ → ℝ)
    (hN : 3 ≤ p.Nx) (hdx : 0 < p.dx) (hc : 0 < p.c) :
    (∀ i, 1 ≤ i → i ≤ p.Nx - 2 →
      step1D p cur prev i =
        2 * cur i - prev i
          + p.dt ^ 2 *
            (p.c ^ 2 * ((cur (i + 1) - 2 * cur i + cur (i - 1)) / p.dx ^ 2)
              - p.omega0 ^ 2 * cur i))
    ∧ step1D p cur prev 0 = 0 ∧ step1D p cur prev (p.Nx - 1) = 0 := by
  refine ⟨fun i h1 h2 => ?_, step1D_left p cur prev, step1D_right p cur prev⟩
  have hne : ¬(i = 0 ∨ i = p.Nx - 1) := by omega
  unfold step1D
  rw [if_neg hne, if_pos ⟨h1, h2⟩]

/-- Witness for C1 at the default parameters and concrete fields. -/
theorem C1_advance_step_witness :
    3 ≤ defaultParams1D.Nx ∧ 0 < defaultParams1D.dx ∧ 0 < defaultParams1D.c ∧
    ((∀ i, 1 ≤ i → i ≤ defaultParams1D.Nx - 2 →
      step1D defaultParams1D (fun _ => 1) (fun _ => 0) i =
        2 * (fun _ : ℕ => (1 : ℝ)) i - (fun _ : ℕ => (0 : ℝ)) i
          + defaultParams1D.dt ^ 2 *
            (defaultParams1D.c ^ 2 *
              (((fun _ : ℕ => (1 : ℝ)) (i + 1) - 2 * (fun _ : ℕ => (1 : ℝ)) i
                  + (fun _ : ℕ => (1 : ℝ)) (i - 1)) / defaultParams1D.dx ^ 2)
              - defaultParams1D.omega0 ^ 2 * (fun _ : ℕ => (1 : ℝ)) i))
    ∧ step1D defaultParams1D (fun _ => 1) (fun _ => 0) 0 = 0
    ∧ step1D defaultParams1D (fun _ => 1) (fun _ => 0) (defaultParams1D.Nx - 1) = 0) :=
  ⟨by norm_num [defaultParams1D],
   by norm_num [defaultParams1D, Params1D.dx],
   by norm_num [defaultParams1D],
   C1_advance_step defaultParams1D (fun _ => 1) (fun _ => 0)
     (by norm_num [defaultParams1D])
     (by norm_num [defaultParams1D, Params1D.dx])
     (by norm_num [defaultParams1D])⟩

/-! ## Claim C2 -/

/-- C2 (amended): after at least one advance step the current 1D field is
exactly 0 at both boundary cells, and the current 2D field is exactly 0
on all four edges; this holds after every update, for any grid, any
save stride, and (in 2D) any pre-seeded instance state and any initial
field. -/
theorem C2_boundary_invariant :
    (∀ (p : Params1D) (Nt k : ℕ), 1 ≤ Nt →
      (VGTSimulation1D.simulate p Nt k).phi 0 = 0 ∧
      (VGTSimulation1D.simulate p Nt k).phi (p.Nx - 1) = 0)
    ∧ (∀ (q : Params2D) (st : Run2D) (phi0 : ℕ → ℕ → ℝ) (Nt k i j : ℕ),
      1 ≤ Nt → (i = 0 ∨ i = q.Ny - 1 ∨ j = 0 ∨ j = q.Nx - 1) →
      (run2Dloop q st phi0 Nt k).phi i j = 0) := by
  constructor
  · intro p Nt k hNt
    have hne : List.range' 1 Nt ≠ [] :=
      (List.range'_ne_nil 1).mpr (by omega)
    obtain ⟨s', b, hfold⟩ :=
      foldl_exists_last (simStep1D p k) (List.range' 1 Nt) hne (init1DState p)
    unfold VGTSimulation1D.simulate
    rw [hfold, simStep1D_phi]
    exact ⟨step1D_left p s'.phi s'.phiPrev, step1D_right p s'.phi s'.phiPrev⟩
  · intro q st phi0 Nt k i j hNt hedge
    have hne : List.range' 1 Nt ≠ [] :=
      (List.range'_ne_nil 1).mpr (by omega)
    obtain ⟨s', b, hfold⟩ := foldl_exists_last (simStep2D q k) (List.range' 1 Nt) hne
      { phi := phi0
        phiPrev := phi0
        hist :=
          { phi_history := st.phi_history ++ [phi0]
            time_points := st.time_points ++ [0]
            energy_history :=
              st.energy_history ++ [compute_energy q phi0 phi0] } }
    unfold run2Dloop
    rw [hfold, simStep2D_phi]
    exact step2D_edge q s'.phi s'.phiPrev i j hedge

/-- Witness for C2 at concrete runs of one step. -/
theorem C2_boundary_invariant_witness :
    (1 ≤ 1 ∧ (VGTSimulation1D.simulate defaultParams1D 1 10).phi 0 = 0)
    ∧ (((0 : ℕ) = 0 ∨ (0 : ℕ) = defaultParams2D.Ny - 1 ∨ (5 : ℕ) = 0 ∨
        (5 : ℕ) = defaultParams2D.Nx - 1)
      ∧ (run2Dloop defaultParams2D ⟨[], [], []⟩ (fun _ _ => 0) 1 10).phi 0 5 = 0) :=
  ⟨⟨le_refl 1,
    (C2_boundary_invariant.1 defaultParams1D 1 10 (le_refl 1)).1⟩,
   ⟨Or.inl rfl,
    C2_boundary_invariant.2 defaultParams2D ⟨[], [], []⟩ (fun _ _ => 0) 1 10 0 5
      (le_refl 1) (Or.inl rfl)⟩⟩

/-- C2 counterexample: with zero advance calls the claim fails — the
initial Gaussian field of the default 1D run is nonzero (it equals
`exp(−250)`) at the left boundary cell, so the boundary invariant does
not hold at initialization. -/
theorem C2_boundary_invariant_counterexample :
    (VGTSimulation1D.simulate defaultParams1D 0 10).phi 0 ≠ 0 := by
  have h : (VGTSimulation1D.simulate defaultParams1D 0 10).phi 0
      = Real.exp (-(((0 : ℝ) - 10 / 2) ^ 2) / 0.1) := by
    simp [VGTSimulation1D.simulate, init1DState, gaussian_pulse, Params1D.x,
      linspace, defaultParams1D]
  rw [h]
  exact Real.exp_ne_zero _

/-! ## Claim C10 -/

/-- C10: for `L > 0` and `Nx ≥ 2`, the coordinate array built by the
constructor has actual point-to-point spacing `L/(Nx−1)`, while the
derived spacing is `dx = L/Nx` (used by the stencil and by
`dt = dt_factor·dx/c`), and `dx` is strictly smaller than the actual
grid spacing. -/
theorem C10_grid_spacing (p : Params1D) (hL : 0 < p.L) (hN : 2 ≤ p.Nx) :
    (∀ i, i + 1 < p.Nx → p.x (i + 1) - p.x i = p.L / ((p.Nx : ℝ) - 1))
    ∧ p.dx = p.L / p.Nx
    ∧ p.dt = p.dt_factor * p.dx / p.c
    ∧ p.dx < p.L / ((p.Nx : ℝ) - 1) := by
  have hgt : ¬(p.Nx ≤ 1) := by omega
  refine ⟨fun i hi => ?_, rfl, rfl, ?_⟩
  · unfold Params1D.x linspace
    rw [if_neg hgt, if_neg hgt, div_sub_div_same]
    push_cast
    ring_nf
  · unfold Params1D.dx
    have h1 : (0 : ℝ) < (p.Nx : ℝ) - 1 := by
      have : (2 : ℝ) ≤ (p.Nx : ℝ) := by exact_mod_cast hN
      linarith
    have h2 : (p.Nx : ℝ) - 1 < (p.Nx : ℝ) := by linarith
    exact (div_lt_div_left hL (by linarith) h1).mpr h2

/-- Witness for C10 at the default 1D parameters. -/
theorem C10_grid_spacing_witness :
    0 < defaultParams1D.L ∧ 2 ≤ defaultParams1D.Nx ∧
    ((∀ i, i + 1 < defaultParams1D.Nx →
        defaultParams1D.x (i + 1) - defaultParams1D.x i =
          defaultParams1D.L / ((defaultParams1D.Nx : ℝ) - 1))
      ∧ defaultParams1D.dx = defaultParams1D.L / defaultParams1D.Nx
      ∧ defaultParams1D.dt =
          defaultParams1D.dt_factor * defaultParams1D.dx / defaultParams1D.c
      ∧ defaultParams1D.dx < defaultParams1D.L / ((defaultParams1D.Nx : ℝ) - 1)) :=
  ⟨by norm_num [defaultParams1D], by norm_num [defaultParams1D],
   C10_grid_spacing defaultParams1D (by norm_num [defaultParams1D])
     (by norm_num [defaultParams1D])⟩

/-! ## Claim C3 -/

/-- C3 (amended): only the unknown initial-condition name is
deliberately validated — the 2D run call raises
`ValueError("Unknown initial_type")` for any name other than
`'gaussian'`/`'ring'`.  For those two names the run call completes
without error whenever both grid axes have at least two points and the
save stride is nonzero (or the loop is empty); the remaining run-call
failures are incidental, not configuration validation: `np.gradient`'s
`ValueError` when an axis has fewer than 2 points, and
`ZeroDivisionError` for `save_every = 0` with `Nt ≥ 1`.  1D
construction performs no validation at all and succeeds for every
spacing and point count except the `ZeroDivisionError` cases `Nx = 0`
and `c = 0`. -/
theorem C3_validation :
    (∀ (p : Params2D) (st : Run2D) (Nt k : ℕ),
      2 ≤ p.Nx → 2 ≤ p.Ny → (k ≠ 0 ∨ Nt = 0) →
      (∃ r, VGTSimulation2D.simulate p st Nt k "gaussian" = Except.ok r)
      ∧ (∃ r, VGTSimulation2D.simulate p st Nt k "ring" = Except.ok r))
    ∧ (∀ (p : Params2D) (st : Run2D) (Nt k : ℕ) (ty : String),
      ty ≠ "gaussian" → ty ≠ "ring" →
      VGTSimulation2D.simulate p st Nt k ty =
        Except.error "Unknown initial_type")
    ∧ (∀ (p : Params2D) (st : Run2D) (Nt k : ℕ) (ty : String),
      (p.Nx < 2 ∨ p.Ny < 2) → (ty = "gaussian" ∨ ty = "ring") →
      VGTSimulation2D.simulate p st Nt k ty =
        Except.error "ValueError: array too small for np.gradient")
    ∧ (∀ (p : Params2D) (st : Run2D) (Nt : ℕ) (ty : String),
      2 ≤ p.Nx → 2 ≤ p.Ny → 1 ≤ Nt → (ty = "gaussian" ∨ ty = "ring") →
      VGTSimulation2D.simulate p st Nt 0 ty = Except.error "ZeroDivisionError")
    ∧ (∀ (L c omega0 f w : ℝ) (Nx : ℕ), Nx ≠ 0 → c ≠ 0 →
      ∃ q, construct1D L Nx c omega0 f w = Except.ok q) := by
  refine ⟨fun p st Nt k hNx hNy hk => ⟨?_, ?_⟩, fun p st Nt k ty h1 h2 => ?_,
    fun p st Nt k ty hsmall hty => ?_, fun p st Nt ty hNx hNy hNt hty => ?_,
    fun L c omega0 f w Nx h1 h2 => ?_⟩
  · refine ⟨run2D p st (gaussian_pulse_2d p (p.Lx / 2) (p.Ly / 2) 1 1) Nt k, ?_⟩
    have hg : ¬(p.Nx < 2 ∨ p.Ny < 2) := by omega
    have hz : ¬(k = 0 ∧ 1 ≤ Nt) := by omega
    simp [VGTSimulation2D.simulate, initial_field, Except.bind, hg, hz]
  · refine ⟨run2D p st (ring_pulse p (p.Lx / 2) (p.Ly / 2) 3 0.5 1) Nt k, ?_⟩
    have hg : ¬(p.Nx < 2 ∨ p.Ny < 2) := by omega
    have hz : ¬(k = 0 ∧ 1 ≤ Nt) := by omega
    simp [VGTSimulation2D.simulate, initial_field, Except.bind, hg, hz]
  · unfold VGTSimulation2D.simulate initial_field
    rw [if_neg h1, if_neg h2]
    rfl
  · rcases hty with rfl | rfl <;>
      simp [VGTSimulation2D.simulate, initial_field, Except.bind, hsmall]
  · have hg : ¬(p.Nx < 2 ∨ p.Ny < 2) := by omega
    rcases hty with rfl | rfl <;>
      simp [VGTSimulation2D.simulate, initial_field, Except.bind, hg, hNt]
  · refine ⟨⟨L, Nx, c, omega0, f, w⟩, ?_⟩
    unfold construct1D
    rw [if_neg h1, if_neg h2]

/-- The one-interior-point grid `Nx=1, Ny=1` on which the Python run
call fails inside `compute_energy` (`np.gradient` on a length-1 axis). -/
def tinyParams2D : Params2D :=
  { Lx := 20, Ly := 20, Nx := 1, Ny := 1, c := 1, omega0 := 2, dt_factor := 0.5 }

/-- Witness for C3 at concrete configurations exercising every part:
a valid run, the unknown-name error, the too-small-grid error, the
zero-stride error, and an unvalidated 1D construction. -/
theorem C3_validation_witness :
    (2 ≤ defaultParams2D.Nx ∧ 2 ≤ defaultParams2D.Ny ∧ ((1 : ℕ) ≠ 0 ∨ (1 : ℕ) = 0)
      ∧ ∃ r, VGTSimulation2D.simulate defaultParams2D ⟨[], [], []⟩ 1 1 "gaussian" =
          Except.ok r)
    ∧ ("spiral" ≠ "gaussian" ∧ "spiral" ≠ "ring"
      ∧ VGTSimulation2D.simulate defaultParams2D ⟨[], [], []⟩ 1 1 "spiral" =
          Except.error "Unknown initial_type")
    ∧ ((tinyParams2D.Nx < 2 ∨ tinyParams2D.Ny < 2)
      ∧ VGTSimulation2D.simulate tinyParams2D ⟨[], [], []⟩ 1 1 "gaussian" =
          Except.error "ValueError: array too small for np.gradient")
    ∧ (1 ≤ 1
      ∧ VGTSimulation2D.simulate defaultParams2D ⟨[], [], []⟩ 1 0 "gaussian" =
          Except.error "ZeroDivisionError")
    ∧ ((400 : ℕ) ≠ 0 ∧ (1 : ℝ) ≠ 0
      ∧ ∃ q, construct1D 10 400 1 2 0.9 0.1 = Except.ok q) :=
  ⟨⟨by norm_num [defaultParams2D], by norm_num [defaultParams2D], Or.inl one_ne_zero,
    (C3_validation.1 defaultParams2D ⟨[], [], []⟩ 1 1
      (by norm_num [defaultParams2D]) (by norm_num [defaultParams2D])
      (Or.inl one_ne_zero)).1⟩,
   ⟨by decide, by decide,
    C3_validation.2.1 defaultParams2D ⟨[], [], []⟩ 1 1 "spiral"
      (by decide) (by decide)⟩,
   ⟨Or.inl (by norm_num [tinyParams2D]),
    C3_validation.2.2.1 tinyParams2D ⟨[], [], []⟩ 1 1 "gaussian"
      (Or.inl (by norm_num [tinyParams2D])) (Or.inl rfl)⟩,
   ⟨le_refl 1,
    C3_validation.2.2.2.1 defaultParams2D ⟨[], [], []⟩ 1 "gaussian"
      (by norm_num [defaultParams2D]) (by norm_num [defaultParams2D])
      (le_refl 1) (Or.inl rfl)⟩,
   ⟨by decide, one_ne_zero,
    C3_validation.2.2.2.2 10 1 2 0.9 0.1 400 (by decide) one_ne_zero⟩⟩

/-- C3 counterexample: invalid configurations per the claim are
accepted silently — construction with `pointCount = 2 < 3` succeeds and
the run completes without any error, and construction with negative
domain length (hence negative spacing) also succeeds. -/
theorem C3_validation_counterexample :
    (construct1D 10 2 1 2 0.9 0.1).map (fun q => VGTSimulation1D.simulate q 5 5)
      = Except.ok (VGTSimulation1D.simulate ⟨10, 2, 1, 2, 0.9, 0.1⟩ 5 5)
    ∧ construct1D (-5) 400 1 2 0.9 0.1 = Except.ok ⟨-5, 400, 1, 2, 0.9, 0.1⟩ := by
  constructor
  · unfold construct1D
    rw [if_neg (by decide : ¬(2 : ℕ) = 0), if_neg (one_ne_zero : ¬(1 : ℝ) = 0)]
    rfl
  · unfold construct1D
    rw [if_neg (by decide : ¬(400 : ℕ) = 0), if_neg (one_ne_zero : ¬(1 : ℝ) = 0)]

/-! ## Claim C6 -/

/-- C6: the stability classification of `analyze_stability` marks a CFL
factor stable exactly when it is strictly below the fixed 2D limit
`1/√2`, marks every factor above the limit unstable, and classifies the
boundary value `1/√2` itself as unstable (the strict comparison). -/
theorem C6_stability_classification (f : ℝ) :
    stability_limit_2d = 1 / Real.sqrt 2
    ∧ (stability_indicator f = 1 ↔ f < stability_limit_2d)
    ∧ (stability_limit_2d < f → stability_indicator f = 0)
    ∧ stability_indicator stability_limit_2d = 0 := by
  refine ⟨rfl, ?_, fun h => ?_, ?_⟩
  · unfold stability_indicator
    split <;> simp_all
  · unfold stability_indicator
    rw [if_neg (not_lt.mpr (le_of_lt h))]
  · unfold stability_indicator
    rw [if_neg (lt_irrefl _)]

/-- Witness for C6 at the scanned factor `f = 1` (above the limit). -/
theorem C6_stability_classification_witness :
    stability_limit_2d < 1 ∧ stability_indicator 1 = 0 := by
  have hs : (1 : ℝ) < Real.sqrt 2 := by
    rw [show (1 : ℝ) = Real.sqrt 1 from Real.sqrt_one.symm]
    exact Real.sqrt_lt_sqrt (by norm_num) (by norm_num)
  have hlim : stability_limit_2d < 1 := by
    unfold stability_limit_2d
    rw [div_lt_one (by positivity)]
    exact hs
  exact ⟨hlim, (C6_stability_classification 1).2.2.1 hlim⟩

/-! ## Claim C7 -/

/-- C7: the `try`/`except` around the exponential-decay `curve_fit`
yields a raw-data-only plot on any fit failure and a fit plot carrying
the fitted parameters on success; the two outcomes are distinct, and
since `amplitude_fit_plot` is total, no failure escapes to abort a
larger sweep. -/
theorem C7_fit_failure_fallback (r : Except Unit (ℝ × ℝ × ℝ)) :
    (∀ e, r = Except.error e → amplitude_fit_plot r = AmplitudePlot.rawOnly)
    ∧ (∀ popt, r = Except.ok popt →
        amplitude_fit_plot r = AmplitudePlot.fitted popt)
    ∧ (∀ popt, AmplitudePlot.fitted popt ≠ AmplitudePlot.rawOnly) := by
  refine ⟨?_, ?_, ?_⟩
  · rintro e rfl
    rfl
  · rintro popt rfl
    rfl
  · intro popt h
    exact AmplitudePlot.noConfusion h

/-- Witness for C7 at a concrete failed fit. -/
theorem C7_fit_failure_fallback_witness :
    (Except.error () : Except Unit (ℝ × ℝ × ℝ)) = Except.error ()
    ∧ amplitude_fit_plot (Except.error ()) = AmplitudePlot.rawOnly :=
  ⟨rfl, (C7_fit_failure_fallback (Except.error ())).1 () rfl⟩

/-! ## Claim C8 -/

/-- C8: a run is a pure function of its construction parameters, step
count, save stride (and, in 2D, instance state and initial-condition
name): two runs with identical inputs produce identical snapshot
histories, time points, amplitude traces and energy records.  The
embedding is faithful here because the source draws on no randomness,
clock, or other ambient state. -/
theorem C8_deterministic_replay :
    (∀ (p q : Params1D) (Nt Ntq k kq : ℕ), p = q → Nt = Ntq → k = kq →
      VGTSimulation1D.simulate p Nt k = VGTSimulation1D.simulate q Ntq kq)
    ∧ (∀ (a b : Params2D) (st stb : Run2D) (n nb s sb : ℕ) (ty tyb : String),
      a = b → st = stb → n = nb → s = sb → ty = tyb →
      VGTSimulation2D.simulate a st n s ty =
        VGTSimulation2D.simulate b stb nb sb tyb) := by
  constructor
  · rintro p q Nt Ntq k kq rfl rfl rfl
    rfl
  · rintro a b st stb n nb s sb ty tyb rfl rfl rfl rfl rfl
    rfl

/-- Witness for C8 at a concrete replayed pair of runs. -/
theorem C8_deterministic_replay_witness :
    (defaultParams1D = defaultParams1D ∧ (3 : ℕ) = 3 ∧ (1 : ℕ) = 1
      ∧ VGTSimulation1D.simulate defaultParams1D 3 1 =
          VGTSimulation1D.simulate defaultParams1D 3 1)
    ∧ (VGTSimulation2D.simulate defaultParams2D ⟨[], [], []⟩ 2 1 "ring" =
        VGTSimulation2D.simulate defaultParams2D ⟨[], [], []⟩ 2 1 "ring") :=
  ⟨⟨rfl, rfl, rfl,
    C8_deterministic_replay.1 defaultParams1D defaultParams1D 3 3 1 1 rfl rfl rfl⟩,
   C8_deterministic_replay.2 defaultParams2D defaultParams2D ⟨[], [], []⟩
     ⟨[], [], []⟩ 2 2 1 1 "ring" "ring" rfl rfl rfl rfl rfl⟩

/-! ## Claim C5 -/

/-- On a grid with at least two columns, the numpy x-gradient agrees
with the spec's gradient convention at every in-range column. -/
theorem np_gradient_x_eq_spec (Nx : ℕ) (dx : ℝ) (phi : ℕ → ℕ → ℝ)
    (hNx : 2 ≤ Nx) (i j : ℕ) (hj : j < Nx) :
    np_gradient_x Nx dx phi i j = specGradX Nx dx phi i j := by
  unfold np_gradient_x specGradX
  by_cases h0 : j = 0
  · have hnot : ¬(1 ≤ j ∧ j ≤ Nx - 2) := by omega
    simp only [if_pos h0, if_neg hnot]
  · by_cases hN : j = Nx - 1
    · have hnot : ¬(1 ≤ j ∧ j ≤ Nx - 2) := by omega
      simp only [if_neg h0, if_pos hN, if_neg hnot]
    · have hin : 1 ≤ j ∧ j ≤ Nx - 2 := by omega
      simp only [if_neg h0, if_neg hN, if_pos hin]

/-- On a grid with at least two rows, the numpy y-gradient agrees with
the spec's gradient convention at every in-range row. -/
theorem np_gradient_y_eq_spec (Ny : ℕ) (dy : ℝ) (phi : ℕ → ℕ → ℝ)
    (hNy : 2 ≤ Ny) (i j : ℕ) (hi : i < Ny) :
    np_gradient_y Ny dy phi i j = specGradY Ny dy phi i j := by
  unfold np_gradient_y specGradY
  by_cases h0 : i = 0
  · have hnot : ¬(1 ≤ i ∧ i ≤ Ny - 2) := by omega
    simp only [if_pos h0, if_neg hnot]
  · by_cases hN : i = Ny - 1
    · have hnot : ¬(1 ≤ i ∧ i ≤ Ny - 2) := by omega
      simp only [if_neg h0, if_pos hN, if_neg hnot]
    · have hin : 1 ≤ i ∧ i ≤ Ny - 2 := by omega
      simp only [if_neg h0, if_neg hN, if_pos hin]

/-- C5: for every pair of field arrays of the grid shape (at least two
points per axis) with `dt, dx, dy > 0` and `ω₀ ≥ 0`, `compute_energy`
returns exactly the spec's kinetic term `½·Σ((cur−prev)/dt)²·dx·dy`
plus potential term `½·Σ(gradient_x² + gradient_y² + ω₀²·cur²)·dx·dy`,
with centered-difference gradients in the interior and one-sided
differences at the edges — the forward-difference velocity estimator
used as-is. -/
theorem C5_energy_functional (p : Params2D) (cur prev : ℕ → ℕ → ℝ)
    (hdt : 0 < p.dt) (hdx : 0 < p.dx) (hdy : 0 < p.dy) (hom : 0 ≤ p.omega0)
    (hNx : 2 ≤ p.Nx) (hNy : 2 ≤ p.Ny) :
    compute_energy p cur prev = energySpec p cur prev := by
  have hsum :
      (∑ i ∈ Finset.range p.Ny, ∑ j ∈ Finset.range p.Nx,
        (np_gradient_x p.Nx p.dx cur i j ^ 2 + np_gradient_y p.Ny p.dy cur i j ^ 2
          + p.omega0 ^ 2 * cur i j ^ 2))
      = (∑ i ∈ Finset.range p.Ny, ∑ j ∈ Finset.range p.Nx,
        (specGradX p.Nx p.dx cur i j ^ 2 + specGradY p.Ny p.dy cur i j ^ 2
          + p.omega0 ^ 2 * cur i j ^ 2)) := by
    refine Finset.sum_congr rfl fun i hi => Finset.sum_congr rfl fun j hj => ?_
    rw [np_gradient_x_eq_spec p.Nx p.dx cur hNx i j (Finset.mem_range.mp hj),
      np_gradient_y_eq_spec p.Ny p.dy cur hNy i j (Finset.mem_range.mp hi)]
  unfold compute_energy energySpec
  rw [hsum]
  ring

/-- Witness for C5 at the default 2D parameters and concrete fields. -/
theorem C5_energy_functional_witness :
    0 < defaultParams2D.dt ∧ 0 < defaultParams2D.dx ∧ 0 < defaultParams2D.dy
    ∧ 0 ≤ defaultParams2D.omega0 ∧ 2 ≤ defaultParams2D.Nx ∧ 2 ≤ defaultParams2D.Ny
    ∧ compute_energy defaultParams2D (fun _ _ => 1) (fun _ _ => 0)
        = energySpec defaultParams2D (fun _ _ => 1) (fun _ _ => 0) :=
  ⟨by norm_num [Params2D.dt, Params2D.dx, Params2D.dy, defaultParams2D],
   by norm_num [Params2D.dx, defaultParams2D],
   by norm_num [Params2D.dy, defaultParams2D],
   by norm_num [defaultParams2D],
   by norm_num [defaultParams2D],
   by norm_num [defaultParams2D],
   C5_energy_functional defaultParams2D (fun _ _ => 1) (fun _ _ => 0)
     (by norm_num [Params2D.dt, Params2D.dx, Params2D.dy, defaultParams2D])
     (by norm_num [Params2D.dx, defaultParams2D])
     (by norm_num [Params2D.dy, defaultParams2D])
     (by norm_num [defaultParams2D])
     (by norm_num [defaultParams2D])
     (by norm_num [defaultParams2D])⟩

/-! ## Claim C9 -/

/-- Index-for-index alignment of the energy record with the snapshot
history: equal lengths, and the `j`-th energy value was computed by
`compute_energy` from the `j`-th snapshot (and some previous field). -/
def Aligned (p : Params2D) (r : Run2D) : Prop :=
  r.phi_history.length = r.energy_history.length ∧
  ∀ (j : ℕ) (φ : ℕ → ℕ → ℝ), r.phi_history[j]? = some φ →
    ∃ ψ, r.energy_history[j]? = some (compute_energy p φ ψ)

/-- Appending a snapshot together with its energy preserves alignment. -/
theorem aligned_append (p : Params2D) (r : Run2D) (ts : List ℝ)
    (φn ψn : ℕ → ℕ → ℝ) (h : Aligned p r) :
    Aligned p
      ⟨r.phi_history ++ [φn], ts,
        r.energy_history ++ [compute_energy p φn ψn]⟩ := by
  obtain ⟨hlen, hval⟩ := h
  constructor
  · simp [hlen]
  · intro j φ hj
    rcases lt_trichotomy j r.phi_history.length with hlt | heq | hgt
    · rw [List.getElem?_append_left hlt] at hj
      obtain ⟨ψ, hψ⟩ := hval j φ hj
      exact ⟨ψ, by rw [List.getElem?_append_left (hlen ▸ hlt), hψ]⟩
    · subst heq
      rw [List.getElem?_concat_length] at hj
      injection hj with hphi
      subst hphi
      exact ⟨ψn, by rw [hlen, List.getElem?_concat_length]⟩
    · rw [List.getElem?_append_right (le_of_lt hgt)] at hj
      rw [List.getElem?_eq_none (by simp; omega)] at hj
      cases hj

/-- One loop iteration of the 2D run preserves alignment. -/
theorem aligned_simStep2D (p : Params2D) (k : ℕ) (s : Loop2D) (t : ℕ)
    (h : Aligned p s.hist) : Aligned p (simStep2D p k s t).hist := by
  unfold simStep2D
  split
  · exact aligned_append p s.hist _ (step2D p s.phi s.phiPrev) s.phi h
  · exact h

/-- The whole 2D time loop preserves alignment. -/
theorem aligned_foldl (p : Params2D) (k : ℕ) :
    ∀ (l : List ℕ) (s : Loop2D), Aligned p s.hist →
      Aligned p ((l.foldl (simStep2D p k)) s).hist
  | [], _, h => h
  | t :: l, s, h => aligned_foldl p k l _ (aligned_simStep2D p k s t h)

/-- C9 (amended): after a 2D run whose pre-run instance state is itself
aligned — in particular a freshly constructed run with empty histories —
the energy record is aligned index-for-index with the snapshot history:
equal lengths, and each energy value computed from the equally-indexed
snapshot.  (Pre-seeding `phi_history` without `energy_history`, as the
interference scenario does, breaks the hypothesis and the alignment.) -/
theorem C9_energy_alignment (p : Params2D) (st : Run2D) (phi0 : ℕ → ℕ → ℝ)
    (Nt k : ℕ) (h : Aligned p st) : Aligned p (run2D p st phi0 Nt k) := by
  unfold run2D run2Dloop
  apply aligned_foldl
  exact aligned_append p st _ phi0 phi0 h

/-- Witness for C9 at a concrete fresh run. -/
theorem C9_energy_alignment_witness :
    Aligned defaultParams2D ⟨[], [], []⟩
    ∧ Aligned defaultParams2D
        (run2D defaultParams2D ⟨[], [], []⟩ (fun _ _ => 0) 2 1) := by
  have h : Aligned defaultParams2D ⟨[], [], []⟩ :=
    ⟨rfl, fun j φ hj => by simp at hj⟩
  exact ⟨h, C9_energy_alignment defaultParams2D ⟨[], [], []⟩ (fun _ _ => 0) 2 1 h⟩

/-- Each 2D loop iteration appends to `phi_history` and
`energy_history` the same number of entries (one on a save step,
zero otherwise). -/
theorem simStep2D_lengths (p : Params2D) (k : ℕ) (s : Loop2D) (t : ℕ) :
    (simStep2D p k s t).hist.phi_history.length
        = s.hist.phi_history.length + (if t % k = 0 then 1 else 0)
    ∧ (simStep2D p k s t).hist.energy_history.length
        = s.hist.energy_history.length + (if t % k = 0 then 1 else 0) := by
  unfold simStep2D
  split
  · rename_i ht
    simp [ht]
  · rename_i ht
    simp [ht]

/-- The 2D time loop preserves the difference between the lengths of
`phi_history` and `energy_history`. -/
theorem foldl2D_len_diff (p : Params2D) (k : ℕ) :
    ∀ (l : List ℕ) (s : Loop2D),
      ((l.foldl (simStep2D p k)) s).hist.phi_history.length
          + s.hist.energy_history.length
        = ((l.foldl (simStep2D p k)) s).hist.energy_history.length
          + s.hist.phi_history.length
  | [], s => Nat.add_comm _ _
  | t :: l, s => by
      have h := foldl2D_len_diff p k l (simStep2D p k s t)
      obtain ⟨g1, g2⟩ := simStep2D_lengths p k s t
      simp only [List.foldl_cons] at h ⊢
      omega

/-- A 2D run preserves the difference between the lengths of the
pre-run `phi_history` and `energy_history`. -/
theorem run2D_len_diff (p : Params2D) (st : Run2D) (phi0 : ℕ → ℕ → ℝ)
    (Nt k : ℕ) :
    (run2D p st phi0 Nt k).phi_history.length + st.energy_history.length
      = (run2D p st phi0 Nt k).energy_history.length + st.phi_history.length := by
  have h := foldl2D_len_diff p k (List.range' 1 Nt)
    { phi := phi0
      phiPrev := phi0
      hist :=
        { phi_history := st.phi_history ++ [phi0]
          time_points := st.time_points ++ [0]
          energy_history :=
            st.energy_history ++ [compute_energy p phi0 phi0] } }
  unfold run2D run2Dloop
  simp only [List.length_append, List.length_cons, List.length_nil] at h
  omega

/-- The constructor arguments used by `demonstrate_interference`
(wave_2d.py line 303): `Lx=30, Ly=30, Nx=300, Ny=300, omega0=1.5` with
the defaults `c=1, dt_factor=0.5`. -/
def interferenceParams : Params2D :=
  { Lx := 30, Ly := 30, Nx := 300, Ny := 300, c := 1, omega0 := 1.5,
    dt_factor := 0.5 }

/-- The superposed two-pulse field `phi1 + phi2` that
`demonstrate_interference` installs (wave_2d.py lines 306-310):
Gaussian pulses at `(10, 15)` and `(20, 15)`, width 1, amplitude 0.7. -/
def interference_seed : ℕ → ℕ → ℝ := fun i j =>
  gaussian_pulse_2d interferenceParams 10 15 1 0.7 i j
    + gaussian_pulse_2d interferenceParams 20 15 1 0.7 i j

/-- The pre-seeded instance state of `demonstrate_interference`
(wave_2d.py lines 310-311): `phi_history = [phi1 + phi2]`,
`time_points = [0]`, and `energy_history` left empty. -/
def interferenceState : Run2D :=
  { phi_history := [interference_seed], time_points := [0], energy_history := [] }

/-- The default Gaussian initial field built inside `simulate` for
`initial_type='gaussian'` (wave_2d.py lines 98-99). -/
def g_default (p : Params2D) : ℕ → ℕ → ℝ :=
  gaussian_pulse_2d p (p.Lx / 2) (p.Ly / 2) 1 1

/-- C9 counterexample: for the interference scenario's pre-seeded run
(`Nt=150, save_every=5`), the snapshot history and the energy record do
not have equal lengths — the pre-seeded snapshot has no matching energy
entry, so the claimed index-for-index alignment fails. -/
theorem C9_energy_alignment_counterexample :
    (run2D interferenceParams interferenceState
        (g_default interferenceParams) 150 5).phi_history.length
      ≠ (run2D interferenceParams interferenceState
          (g_default interferenceParams) 150 5).energy_history.length := by
  have h := run2D_len_diff interferenceParams interferenceState
    (g_default interferenceParams) 150 5
  have h1 : interferenceState.phi_history.length = 1 := rfl
  have h2 : interferenceState.energy_history.length = 0 := rfl
  omega

/-! ## Claim C4 -/

/-- A 2D loop iteration appends the freshly advanced field to the
snapshot history on a save step and nothing otherwise. -/
theorem simStep2D_hist_phi (p : Params2D) (k : ℕ) (s : Loop2D) (t : ℕ) :
    (simStep2D p k s t).hist.phi_history
      = s.hist.phi_history
          ++ (if t % k = 0 then [step2D p s.phi s.phiPrev] else []) := by
  unfold simStep2D
  by_cases ht : t % k = 0
  · simp only [if_pos ht]
  · simp only [if_neg ht, List.append_nil]

/-- The 2D time loop only ever appends to the snapshot history. -/
theorem foldl2D_hist_extends (p : Params2D) (k : ℕ) :
    ∀ (l : List ℕ) (s : Loop2D), ∃ tl,
      (List.foldl (simStep2D p k) s l).hist.phi_history
        = s.hist.phi_history ++ tl
  | [], s => ⟨[], (List.append_nil _).symm⟩
  | t :: l, s => by
      obtain ⟨tl, htl⟩ := foldl2D_hist_extends p k l (simStep2D p k s t)
      refine ⟨(if t % k = 0 then [step2D p s.phi s.phiPrev] else []) ++ tl, ?_⟩
      rw [List.foldl_cons, htl, simStep2D_hist_phi, List.append_assoc]

/-- A 2D run leaves any pre-seeded history in place and records its own
initial field right after it: the field the loop actually starts from
sits at index `st.phi_history.length` of the produced history. -/
theorem run2D_hist_extends (p : Params2D) (st : Run2D) (phi0 : ℕ → ℕ → ℝ)
    (Nt k : ℕ) :
    ∃ tl, (run2D p st phi0 Nt k).phi_history = st.phi_history ++ phi0 :: tl := by
  obtain ⟨tl, htl⟩ := foldl2D_hist_extends p k (List.range' 1 Nt)
    { phi := phi0
      phiPrev := phi0
      hist :=
        { phi_history := st.phi_history ++ [phi0]
          time_points := st.time_points ++ [0]
          energy_history :=
            st.energy_history ++ [compute_energy p phi0 phi0] } }
  refine ⟨tl, ?_⟩
  unfold run2D run2Dloop
  rw [htl, List.append_assoc]
  rfl

/-- Any `exp(−a)` with `a ≥ 1` is below one half. -/
theorem exp_neg_lt_half {a : ℝ} (ha : 1 ≤ a) : Real.exp (-a) < 1 / 2 := by
  have h1 : Real.exp (-a) ≤ Real.exp (-1) := Real.exp_le_exp.mpr (by linarith)
  have h2 : Real.exp (-1) < 1 / 2 := by
    rw [Real.exp_neg]
    have he : (2 : ℝ) < Real.exp 1 := lt_trans (by norm_num) Real.exp_one_gt_d9
    have hi := inv_lt_inv_of_lt (by norm_num : (0 : ℝ) < 2) he
    have h3 : (2 : ℝ)⁻¹ = 1 / 2 := by norm_num
    linarith
  linarith

/-- C4: evaluating `demonstrate_interference`'s run — `simulate` ignores
the pre-seeded superposed field entirely.  The run it performs starts
from the default centered Gaussian `g_default` (which lands at index 1
of the history, right after the stale superposition seed), and that
field genuinely differs from the installed superposition: at grid point
`(149, 100)` (physically near the first pulse center `(10, 15)`) the
default Gaussian is below `1/2` while the superposition is above `1/2`. -/
theorem C4_interference_not_superposed :
    VGTSimulation2D.simulate interferenceParams interferenceState 150 5 "gaussian"
      = Except.ok (run2D interferenceParams interferenceState
          (g_default interferenceParams) 150 5)
    ∧ (run2D interferenceParams interferenceState
        (g_default interferenceParams) 150 5).phi_history[1]?
        = some (g_default interferenceParams)
    ∧ g_default interferenceParams 149 100 < 1 / 2
    ∧ 1 / 2 < interference_seed 149 100 := by
  have hX : interferenceParams.X 149 100 = 3000 / 299 := by
    norm_num [Params2D.X, linspace, interferenceParams]
  have hY : interferenceParams.Y 149 100 = 4470 / 299 := by
    norm_num [Params2D.Y, linspace, interferenceParams]
  refine ⟨?_, ?_, ?_, ?_⟩
  · have hg : ¬(interferenceParams.Nx < 2 ∨ interferenceParams.Ny < 2) := by
      norm_num [interferenceParams]
    simp [VGTSimulation2D.simulate, initial_field, Except.bind, g_default, hg]
  · obtain ⟨tl, htl⟩ := run2D_hist_extends interferenceParams interferenceState
      (g_default interferenceParams) 150 5
    rw [htl]
    simp [interferenceState]
  · have harg :
        -((interferenceParams.X 149 100 - interferenceParams.Lx / 2) ^ 2
            + (interferenceParams.Y 149 100 - interferenceParams.Ly / 2) ^ 2)
          / (1 : ℝ) ^ 2 = -(2205450 / 89401) := by
      rw [hX, hY]
      norm_num [interferenceParams]
    have hval : g_default interferenceParams 149 100
        = Real.exp (-(2205450 / 89401)) := by
      unfold g_default gaussian_pulse_2d
      rw [harg, one_mul]
    rw [hval]
    exact exp_neg_lt_half (by norm_num)
  · have harg1 :
        -((interferenceParams.X 149 100 - 10) ^ 2
            + (interferenceParams.Y 149 100 - 15) ^ 2) / (1 : ℝ) ^ 2
          = -(325 / 89401) := by
      rw [hX, hY]
      norm_num
    have harg2 :
        -((interferenceParams.X 149 100 - 20) ^ 2
            + (interferenceParams.Y 149 100 - 15) ^ 2) / (1 : ℝ) ^ 2
          = -(8880625 / 89401) := by
      rw [hX, hY]
      norm_num
    have hval : interference_seed 149 100
        = 0.7 * Real.exp (-(325 / 89401)) + 0.7 * Real.exp (-(8880625 / 89401)) := by
      unfold interference_seed gaussian_pulse_2d
      rw [harg1, harg2]
    have e1 : 1 - (325 : ℝ) / 89401 ≤ Real.exp (-(325 / 89401)) := by
      have := Real.add_one_le_exp (-(325 / 89401) : ℝ)
      linarith
    have e2 : 0 < Real.exp (-(8880625 / 89401) : ℝ) := Real.exp_pos _
    have hbound : (1 : ℝ) / 2 < 0.7 * (1 - 325 / 89401) := by norm_num
    rw [hval]
    nlinarith

end VGT
